import Mathlib

/-!
Shallow embedding of the Transaction-Engine repository (src/client.rs,
src/transaction.rs).  Monetary amounts are modelled as exact rationals;
the hash maps backing the client and transaction databases are modelled
as functions from keys to optional values.
-/

/-- The five transaction kinds (src/transaction.rs, `TransactionType`). -/
inductive TransactionType where
  | Deposit
  | Withdrawal
  | Dispute
  | Resolve
  | Chargeback
deriving DecidableEq, Repr

/-- A parsed transaction record (src/transaction.rs, `Transaction`).
`client_id` is a u16 and `transaction_id` a u32 in the source; the claims
do not depend on the width, so both are modelled as naturals. -/
structure Transaction where
  transaction_type : TransactionType
  client_id : Nat
  transaction_id : Nat
  amount : Option ℚ
deriving DecidableEq, Repr

/-- The ledger store (src/transaction.rs, `TransactionDb`): a map from
transaction id to transaction, modelled as a function. -/
structure TransactionDb where
  db : Nat → Option Transaction

/-- `TransactionDb::init` — an empty store. -/
def TransactionDb.init : TransactionDb :=
  ⟨fun _ => none⟩

/-- `TransactionDb::insert_transaction` — stores the transaction keyed by
its id when its kind is Deposit or Withdrawal, otherwise does nothing. -/
def TransactionDb.insert_transaction (d : TransactionDb) (t : Transaction) :
    TransactionDb :=
  match t.transaction_type with
  | TransactionType.Deposit | TransactionType.Withdrawal =>
      ⟨fun k => if k = t.transaction_id then some t else d.db k⟩
  | _ => d

/-- `TransactionDb::retrieve_transaction_data` — lookup by transaction id. -/
def TransactionDb.retrieve_transaction_data (d : TransactionDb)
    (transaction_id : Nat) : Option Transaction :=
  d.db transaction_id

/-- A client account (src/client.rs, `Client`). -/
structure Client where
  client_id : Nat
  available : ℚ
  held : ℚ
  total : ℚ
  locked : Bool
deriving DecidableEq, Repr

/-- `Client::new` — fresh account with zero balances, unlocked. -/
def Client.new (client_id : Nat) : Client :=
  { client_id := client_id
    available := 0
    held := 0
    total := 0
    locked := false }

/-- `Client::deposit` — credit `amount` to available and total; a missing
amount is ignored. -/
def Client.deposit (c : Client) (deposit_amount : Option ℚ) : Client :=
  match deposit_amount with
  | some amount => { c with total := c.total + amount, available := c.available + amount }
  | none => c

/-- `Client::withdrawal` — debit `amount` when it is strictly below the
available balance; otherwise (or when the amount is missing) do nothing. -/
def Client.withdrawal (c : Client) (withdrawal_amount : Option ℚ) : Client :=
  match withdrawal_amount with
  | some amount =>
      if amount < c.available then
        { c with available := c.available - amount, total := c.total - amount }
      else c
  | none => c

/-- `Client::dispute` — look up the referenced transaction; when found with
an amount, move that amount from available to held. -/
def Client.dispute (c : Client) (transaction_id : Nat) (transaction_db : TransactionDb) :
    Client :=
  match transaction_db.retrieve_transaction_data transaction_id with
  | some tx =>
      match tx.amount with
      | some value => { c with available := c.available - value, held := c.held + value }
      | none => c
  | none => c

/-- `Client::resolve` — look up the referenced transaction; when found with
an amount, move that amount from held back to available. -/
def Client.resolve (c : Client) (transaction_id : Nat) (transaction_db : TransactionDb) :
    Client :=
  match transaction_db.retrieve_transaction_data transaction_id with
  | some tx =>
      match tx.amount with
      | some value => { c with available := c.available + value, held := c.held - value }
      | none => c
  | none => c

/-- `Client::chargeback` — look up the referenced transaction; when found
with an amount, remove it from held and total and lock the account. -/
def Client.chargeback (c : Client) (transaction_id : Nat) (transaction_db : TransactionDb) :
    Client :=
  match transaction_db.retrieve_transaction_data transaction_id with
  | some tx =>
      match tx.amount with
      | some value =>
          { c with held := c.held - value, total := c.total - value, locked := true }
      | none => c
  | none => c

/-- `Client::apply_transaction_to_client` — early return for locked
accounts, otherwise dispatch on the transaction kind. -/
def Client.apply_transaction_to_client (c : Client) (transaction : Transaction)
    (transaction_db : TransactionDb) : Client :=
  if c.locked then c
  else
    match transaction.transaction_type with
    | TransactionType.Deposit => c.deposit transaction.amount
    | TransactionType.Withdrawal => c.withdrawal transaction.amount
    | TransactionType.Dispute => c.dispute transaction.transaction_id transaction_db
    | TransactionType.Resolve => c.resolve transaction.transaction_id transaction_db
    | TransactionType.Chargeback => c.chargeback transaction.transaction_id transaction_db

/-- The client registry (src/client.rs, `ClientDb`), modelled as a
function from client id to optional account. -/
structure ClientDb where
  db : Nat → Option Client

/-- `ClientDb::init` — empty registry. -/
def ClientDb.init : ClientDb :=
  ⟨fun _ => none⟩

/-- `ClientDb::insert_client_record` — store the client keyed by its own
`client_id` field. -/
def ClientDb.insert_client_record (d : ClientDb) (client_record : Client) : ClientDb :=
  ⟨fun k => if k = client_record.client_id then some client_record else d.db k⟩

/-- `ClientDb::get_client_record` — lookup by client id. -/
def ClientDb.get_client_record (d : ClientDb) (client_id : Nat) : Option Client :=
  d.db client_id

/-- `Transaction::handle_transaction` — if an account for the record's
client id exists, apply the transaction to it in place; otherwise create a
fresh account, apply the transaction, and insert it.  The in-place
mutation of the Rust `&mut` reference is modelled as an update of the map
at the key under which the record was found. -/
def Transaction.handle_transaction (t : Transaction) (transaction_db : TransactionDb)
    (client_db : ClientDb) : ClientDb :=
  match client_db.get_client_record t.client_id with
  | some record =>
      ⟨fun k => if k = t.client_id
                then some (record.apply_transaction_to_client t transaction_db)
                else client_db.db k⟩
  | none =>
      client_db.insert_client_record
        ((Client.new t.client_id).apply_transaction_to_client t transaction_db)

/-- `apply_transactions` (src/transaction.rs) — replay the rows in order.
Each row either deserializes to a transaction or fails with an error
message.  On the first failing row the loop stops and the error is
returned together with the state accumulated so far (the Rust function
mutates the databases through `&mut` references, so state reached before
the failure is retained by the caller). -/
def apply_transactions :
    List (Except String Transaction) → TransactionDb → ClientDb →
    TransactionDb × ClientDb × Option String
  | [], transaction_db, client_db => (transaction_db, client_db, none)
  | Except.error e :: _, transaction_db, client_db => (transaction_db, client_db, some e)
  | Except.ok t :: rest, transaction_db, client_db =>
      apply_transactions rest (transaction_db.insert_transaction t)
        (t.handle_transaction transaction_db client_db)

/-- Rounding of `f64::round` on exact values: nearest integer, halves away
from zero. -/
def roundHalfAwayFromZero (q : ℚ) : ℤ :=
  if 0 ≤ q then ⌊q + 1 / 2⌋ else -⌊-q + 1 / 2⌋

/-- `round_serialize` (src/client.rs) — `(x * 10000).round() / 10000`,
applied to every balance field at the point of serialization. -/
def round_serialize (x : ℚ) : ℚ :=
  (roundHalfAwayFromZero (x * 10000) : ℚ) / 10000

/-- `round_deserialise` (src/transaction.rs) — a parse failure of the
amount field yields `none`; a parsed value is rounded with
`(value * 10000).round() / 10000`. -/
def round_deserialise (x : Except String ℚ) : Option ℚ :=
  match x with
  | Except.ok value => some ((roundHalfAwayFromZero (value * 10000) : ℚ) / 10000)
  | Except.error _ => none

/-- C1: a locked account is left completely unchanged by `apply`, whatever
the transaction record is: available, held, total and locked all keep
their values. -/
theorem locked_account_unchanged (c : Client) (t : Transaction) (d : TransactionDb)
    (h : c.locked = true) : c.apply_transaction_to_client t d = c := by
  unfold Client.apply_transaction_to_client
  simp [h]

/-- Witness for C1 at a concrete locked account. -/
theorem locked_account_unchanged_witness :
    Client.apply_transaction_to_client
      { client_id := 1, available := 5, held := 2, total := 7, locked := true }
      { transaction_type := TransactionType.Deposit, client_id := 1,
        transaction_id := 1, amount := some 3 }
      TransactionDb.init
    = { client_id := 1, available := 5, held := 2, total := 7, locked := true } :=
  locked_account_unchanged _ _ _ rfl

/-- C2: on an unlocked account, a withdrawal of a present amount `amt`
debits available and total by `amt` (held and locked untouched) exactly
when `amt < available`; when `amt >= available` (the boundary included)
or the amount is absent, the account is unchanged. -/
theorem withdrawal_strict_boundary (c : Client) (cid txid : Nat) (amt : ℚ)
    (d : TransactionDb) (h : c.locked = false) :
    (amt < c.available →
      c.apply_transaction_to_client ⟨TransactionType.Withdrawal, cid, txid, some amt⟩ d
        = { c with available := c.available - amt, total := c.total - amt }) ∧
    (c.available ≤ amt →
      c.apply_transaction_to_client ⟨TransactionType.Withdrawal, cid, txid, some amt⟩ d
        = c) ∧
    c.apply_transaction_to_client ⟨TransactionType.Withdrawal, cid, txid, none⟩ d = c := by
  refine ⟨fun hlt => ?_, fun hge => ?_, ?_⟩ <;>
    simp [Client.apply_transaction_to_client, Client.withdrawal, h]
  · simp [hlt]
  · simp [not_lt.mpr hge]

/-- Witness for C2: withdrawing 4 from an account with 10 available. -/
theorem withdrawal_strict_boundary_witness :
    Client.apply_transaction_to_client
      { client_id := 1, available := 10, held := 2, total := 12, locked := false }
      { transaction_type := TransactionType.Withdrawal, client_id := 1,
        transaction_id := 7, amount := some 4 }
      TransactionDb.init
    = { client_id := 1, available := 10 - 4, held := 2, total := 12 - 4,
        locked := false } :=
  (withdrawal_strict_boundary
    { client_id := 1, available := 10, held := 2, total := 12, locked := false }
    1 7 4 TransactionDb.init rfl).1 (by norm_num)

/-- C3: on an unlocked account, a dispute whose referenced ledger entry
carries amount `amt` moves `amt` from available to held (total and locked
untouched), and a resolve of the same transaction id applied right after
restores the account exactly; nothing constrains the entry's client id,
prior disputes, or the sign of held. -/
theorem dispute_resolve_roundtrip (c : Client) (cid cid2 txid : Nat)
    (a1 a2 : Option ℚ) (d : TransactionDb) (tx : Transaction) (amt : ℚ)
    (hl : c.locked = false)
    (ht : d.retrieve_transaction_data txid = some tx)
    (ha : tx.amount = some amt) :
    c.apply_transaction_to_client ⟨TransactionType.Dispute, cid, txid, a1⟩ d
      = { c with available := c.available - amt, held := c.held + amt } ∧
    (c.apply_transaction_to_client ⟨TransactionType.Dispute, cid, txid, a1⟩
        d).apply_transaction_to_client ⟨TransactionType.Resolve, cid2, txid, a2⟩ d
      = c := by
  obtain ⟨i, av, he, tot, lo⟩ := c
  simp only [Client.locked] at hl
  subst hl
  refine ⟨?_, ?_⟩ <;>
    simp [Client.apply_transaction_to_client, Client.dispute, Client.resolve,
      ht, ha]

/-- Witness for C3: dispute then resolve of a recorded deposit of 7. -/
theorem dispute_resolve_roundtrip_witness :
    (Client.apply_transaction_to_client
      (Client.apply_transaction_to_client
        { client_id := 1, available := 3, held := 1, total := 4, locked := false }
        { transaction_type := TransactionType.Dispute, client_id := 1,
          transaction_id := 5, amount := none }
        (TransactionDb.init.insert_transaction
          { transaction_type := TransactionType.Deposit, client_id := 1,
            transaction_id := 5, amount := some 7 }))
      { transaction_type := TransactionType.Resolve, client_id := 2,
        transaction_id := 5, amount := none }
      (TransactionDb.init.insert_transaction
        { transaction_type := TransactionType.Deposit, client_id := 1,
          transaction_id := 5, amount := some 7 }))
    = { client_id := 1, available := 3, held := 1, total := 4, locked := false } :=
  (dispute_resolve_roundtrip
    { client_id := 1, available := 3, held := 1, total := 4, locked := false }
    1 2 5 none none
    (TransactionDb.init.insert_transaction
      { transaction_type := TransactionType.Deposit, client_id := 1,
        transaction_id := 5, amount := some 7 })
    { transaction_type := TransactionType.Deposit, client_id := 1,
      transaction_id := 5, amount := some 7 }
    7 rfl rfl rfl).2

/-- C4: on an unlocked account, a chargeback whose referenced ledger entry
carries an amount removes that amount from held and total, leaves
available unchanged and locks the account; with a missing entry or a
missing amount the account is unchanged and stays unlocked. -/
theorem chargeback_locks (c : Client) (cid txid : Nat) (a : Option ℚ)
    (d : TransactionDb) (hl : c.locked = false) :
    (∀ tx amt, d.retrieve_transaction_data txid = some tx → tx.amount = some amt →
      c.apply_transaction_to_client ⟨TransactionType.Chargeback, cid, txid, a⟩ d
        = { c with held := c.held - amt, total := c.total - amt, locked := true }) ∧
    (d.retrieve_transaction_data txid = none →
      c.apply_transaction_to_client ⟨TransactionType.Chargeback, cid, txid, a⟩ d = c) ∧
    (∀ tx, d.retrieve_transaction_data txid = some tx → tx.amount = none →
      c.apply_transaction_to_client ⟨TransactionType.Chargeback, cid, txid, a⟩ d = c) := by
  refine ⟨fun tx amt ht ha => ?_, fun ht => ?_, fun tx ht ha => ?_⟩
  · simp [Client.apply_transaction_to_client, Client.chargeback, hl, ht, ha]
  · simp [Client.apply_transaction_to_client, Client.chargeback, hl, ht]
  · simp [Client.apply_transaction_to_client, Client.chargeback, hl, ht, ha]

/-- Witness for C4: chargeback of a recorded deposit of 7. -/
theorem chargeback_locks_witness :
    Client.apply_transaction_to_client
      { client_id := 1, available := 3, held := 9, total := 12, locked := false }
      { transaction_type := TransactionType.Chargeback, client_id := 1,
        transaction_id := 5, amount := none }
      (TransactionDb.init.insert_transaction
        { transaction_type := TransactionType.Deposit, client_id := 1,
          transaction_id := 5, amount := some 7 })
    = { client_id := 1, available := 3, held := 9 - 7, total := 12 - 7,
        locked := true } :=
  (chargeback_locks
    { client_id := 1, available := 3, held := 9, total := 12, locked := false }
    1 5 none
    (TransactionDb.init.insert_transaction
      { transaction_type := TransactionType.Deposit, client_id := 1,
        transaction_id := 5, amount := some 7 })
    rfl).1
    { transaction_type := TransactionType.Deposit, client_id := 1,
      transaction_id := 5, amount := some 7 }
    7 rfl rfl

/-- C5: a fresh account has zero balances and is unlocked, and one
application of any transaction record preserves the accounting identity
`total = available + held` in exact arithmetic. -/
theorem total_eq_available_add_held :
    (∀ id : Nat, (Client.new id).available = 0 ∧ (Client.new id).held = 0 ∧
      (Client.new id).total = 0 ∧ (Client.new id).locked = false) ∧
    (∀ (c : Client) (t : Transaction) (d : TransactionDb),
      c.total = c.available + c.held →
      (c.apply_transaction_to_client t d).total
        = (c.apply_transaction_to_client t d).available
          + (c.apply_transaction_to_client t d).held) := by
  refine ⟨fun id => ⟨rfl, rfl, rfl, rfl⟩, fun c t d h => ?_⟩
  unfold Client.apply_transaction_to_client
  by_cases hl : c.locked = true
  · simp [hl, h]
  · simp only [hl, if_false, Bool.not_eq_true] at *
    cases t.transaction_type with
    | Deposit =>
      unfold Client.deposit
      cases t.amount <;> simp [h] <;> ring
    | Withdrawal =>
      unfold Client.withdrawal
      cases t.amount with
      | none => simpa using h
      | some amt =>
        by_cases hlt : amt < c.available <;> simp [hlt, h] <;> ring
    | Dispute =>
      unfold Client.dispute
      cases hd : d.retrieve_transaction_data t.transaction_id with
      | none => simpa using h
      | some tx =>
        cases ha : tx.amount <;> simp [ha, h]
    | Resolve =>
      unfold Client.resolve
      cases hd : d.retrieve_transaction_data t.transaction_id with
      | none => simpa using h
      | some tx =>
        cases ha : tx.amount <;> simp [ha, h]
    | Chargeback =>
      unfold Client.chargeback
      cases hd : d.retrieve_transaction_data t.transaction_id with
      | none => simpa using h
      | some tx =>
        cases ha : tx.amount <;> simp [ha, h] <;> try ring

/-- Witness for C5: the identity survives a concrete deposit on an
account satisfying it. -/
theorem total_eq_available_add_held_witness :
    (Client.apply_transaction_to_client
      { client_id := 1, available := 2, held := 3, total := 5, locked := false }
      { transaction_type := TransactionType.Deposit, client_id := 1,
        transaction_id := 1, amount := some 4 }
      TransactionDb.init).total
    = (Client.apply_transaction_to_client
        { client_id := 1, available := 2, held := 3, total := 5, locked := false }
        { transaction_type := TransactionType.Deposit, client_id := 1,
          transaction_id := 1, amount := some 4 }
        TransactionDb.init).available
      + (Client.apply_transaction_to_client
          { client_id := 1, available := 2, held := 3, total := 5, locked := false }
          { transaction_type := TransactionType.Deposit, client_id := 1,
            transaction_id := 1, amount := some 4 }
          TransactionDb.init).held :=
  total_eq_available_add_held.2
    { client_id := 1, available := 2, held := 3, total := 5, locked := false }
    { transaction_type := TransactionType.Deposit, client_id := 1,
      transaction_id := 1, amount := some 4 }
    TransactionDb.init (by norm_num)

/-- Helper: applying a transaction never changes the account's id. -/
theorem apply_client_id_eq (c : Client) (t : Transaction) (d : TransactionDb) :
    (c.apply_transaction_to_client t d).client_id = c.client_id := by
  unfold Client.apply_transaction_to_client Client.deposit Client.withdrawal
    Client.dispute Client.resolve Client.chargeback
  repeat' split
  all_goals rfl

/-- C6: the replay loop leaves the state untouched on an empty input,
returns the error and the state accumulated so far at the first row that
fails to deserialize (no further rows are processed, nothing is rolled
back), and for a well-formed row first applies the transaction to the
fetched-or-created account of the row's client id and then records the
row into the ledger store before continuing with the rest. -/
theorem replay_engine_order :
    (∀ (td : TransactionDb) (cd : ClientDb),
      apply_transactions [] td cd = (td, cd, none)) ∧
    (∀ (e : String) (rest : List (Except String Transaction))
        (td : TransactionDb) (cd : ClientDb),
      apply_transactions (Except.error e :: rest) td cd = (td, cd, some e)) ∧
    (∀ (t : Transaction) (rest : List (Except String Transaction))
        (td : TransactionDb) (cd : ClientDb),
      apply_transactions (Except.ok t :: rest) td cd
        = apply_transactions rest (td.insert_transaction t)
            (t.handle_transaction td cd)) ∧
    (∀ (t : Transaction) (td : TransactionDb) (cd : ClientDb) (k : Nat),
      (t.handle_transaction td cd).db k
        = if k = t.client_id
          then some ((match cd.get_client_record t.client_id with
                      | some record => record
                      | none => Client.new t.client_id).apply_transaction_to_client t td)
          else cd.db k) := by
  refine ⟨fun td cd => rfl, fun e rest td cd => rfl, fun t rest td cd => rfl,
    fun t td cd k => ?_⟩
  unfold Transaction.handle_transaction
  cases hg : cd.get_client_record t.client_id with
  | some record => simp [hg]
  | none =>
    simp [hg, ClientDb.insert_client_record, apply_client_id_eq, Client.new]

/-- C7: the ledger store records a transaction under its id exactly for
deposits and withdrawals — inserting a dispute, resolve or chargeback
returns the store unchanged — and inserting under an already-present id
overwrites, so a lookup returns the most recently recorded transaction. -/
theorem ledger_record_semantics :
    (∀ (d : TransactionDb) (cid txid : Nat) (a : Option ℚ) (k : Nat),
      (d.insert_transaction ⟨TransactionType.Deposit, cid, txid, a⟩).retrieve_transaction_data k
        = if k = txid then some ⟨TransactionType.Deposit, cid, txid, a⟩
          else d.retrieve_transaction_data k) ∧
    (∀ (d : TransactionDb) (cid txid : Nat) (a : Option ℚ) (k : Nat),
      (d.insert_transaction ⟨TransactionType.Withdrawal, cid, txid, a⟩).retrieve_transaction_data k
        = if k = txid then some ⟨TransactionType.Withdrawal, cid, txid, a⟩
          else d.retrieve_transaction_data k) ∧
    (∀ (d : TransactionDb) (cid txid : Nat) (a : Option ℚ),
      d.insert_transaction ⟨TransactionType.Dispute, cid, txid, a⟩ = d) ∧
    (∀ (d : TransactionDb) (cid txid : Nat) (a : Option ℚ),
      d.insert_transaction ⟨TransactionType.Resolve, cid, txid, a⟩ = d) ∧
    (∀ (d : TransactionDb) (cid txid : Nat) (a : Option ℚ),
      d.insert_transaction ⟨TransactionType.Chargeback, cid, txid, a⟩ = d) ∧
    (∀ (d : TransactionDb) (cid1 cid2 txid : Nat) (a1 a2 : Option ℚ),
      ((d.insert_transaction ⟨TransactionType.Deposit, cid1, txid, a1⟩).insert_transaction
          ⟨TransactionType.Withdrawal, cid2, txid, a2⟩).retrieve_transaction_data txid
        = some ⟨TransactionType.Withdrawal, cid2, txid, a2⟩) := by
  refine ⟨fun d cid txid a k => rfl, fun d cid txid a k => rfl,
    fun d cid txid a => rfl, fun d cid txid a => rfl, fun d cid txid a => rfl,
    fun d cid1 cid2 txid a1 a2 => ?_⟩
  simp [TransactionDb.insert_transaction, TransactionDb.retrieve_transaction_data]

/-- C8: a dispute, resolve or chargeback whose transaction id has no
ledger entry, or whose entry carries no amount, leaves the account
completely unchanged, with no error. -/
theorem missing_reference_noop (c : Client) (cid txid : Nat) (a : Option ℚ)
    (d : TransactionDb)
    (h : d.retrieve_transaction_data txid = none ∨
      ∃ tx, d.retrieve_transaction_data txid = some tx ∧ tx.amount = none) :
    c.apply_transaction_to_client ⟨TransactionType.Dispute, cid, txid, a⟩ d = c ∧
    c.apply_transaction_to_client ⟨TransactionType.Resolve, cid, txid, a⟩ d = c ∧
    c.apply_transaction_to_client ⟨TransactionType.Chargeback, cid, txid, a⟩ d = c := by
  by_cases hl : c.locked = true
  · refine ⟨?_, ?_, ?_⟩ <;> simp [Client.apply_transaction_to_client, hl]
  · simp only [Bool.not_eq_true] at hl
    rcases h with h | ⟨tx, ht, ha⟩ <;>
      refine ⟨?_, ?_, ?_⟩ <;>
      simp [Client.apply_transaction_to_client, Client.dispute, Client.resolve,
        Client.chargeback, hl, *]

/-- Witness for C8: a dispute against an empty ledger store. -/
theorem missing_reference_noop_witness :
    Client.apply_transaction_to_client
      { client_id := 1, available := 2, held := 3, total := 5, locked := false }
      { transaction_type := TransactionType.Dispute, client_id := 1,
        transaction_id := 9, amount := none }
      TransactionDb.init
    = { client_id := 1, available := 2, held := 3, total := 5, locked := false } :=
  (missing_reference_noop
    { client_id := 1, available := 2, held := 3, total := 5, locked := false }
    1 9 none TransactionDb.init (Or.inl rfl)).1

/-- Helper: rounding half away from zero fixes every integer. -/
theorem roundHalfAwayFromZero_intCast (k : ℤ) : roundHalfAwayFromZero (k : ℚ) = k := by
  unfold roundHalfAwayFromZero
  split
  · rw [Int.floor_int_add]
    norm_num
  · rw [show (-(k : ℚ)) = ((-k : ℤ) : ℚ) by push_cast; ring, Int.floor_int_add]
    norm_num

/-- C9: amounts are rounded to 4 decimal places with
`round(x * 10000) / 10000` both at deserialization and at serialization,
the two paths agree, the rounding is idempotent, and the input `10.00001`
is stored and reported as `10.0`. -/
theorem rounding_four_dp :
    (∀ x : ℚ, round_deserialise (Except.ok x) = some (round_serialize x)) ∧
    (∀ x : ℚ, round_serialize (round_serialize x) = round_serialize x) ∧
    round_deserialise (Except.ok (1000001 / 100000)) = some 10 ∧
    round_serialize (1000001 / 100000) = 10 := by
  have hidem : ∀ x : ℚ, round_serialize (round_serialize x) = round_serialize x := by
    intro x
    unfold round_serialize
    have h10 :
        ((roundHalfAwayFromZero (x * 10000) : ℚ) / 10000) * 10000
          = (roundHalfAwayFromZero (x * 10000) : ℚ) := by
      field_simp
    rw [h10, roundHalfAwayFromZero_intCast]
  refine ⟨fun x => rfl, hidem, ?_, ?_⟩ <;>
    norm_num [round_deserialise, round_serialize, roundHalfAwayFromZero,
      Int.floor_eq_iff]

/-- C10: a withdrawal rejected for insufficient available funds leaves the
account unchanged yet is still recorded into the ledger store by the
replay loop, so a later dispute of its transaction id moves the full
amount from available to held although the withdrawal moved nothing. -/
theorem rejected_withdrawal_still_disputable (c : Client) (amt : ℚ) (txid : Nat)
    (td : TransactionDb) (cd : ClientDb)
    (hl : c.locked = false) (hge : c.available ≤ amt)
    (hc : cd.db c.client_id = some c) :
    ((⟨TransactionType.Withdrawal, c.client_id, txid, some amt⟩ :
        Transaction).handle_transaction td cd).db c.client_id = some c ∧
    (apply_transactions
        [Except.ok ⟨TransactionType.Withdrawal, c.client_id, txid, some amt⟩,
         Except.ok ⟨TransactionType.Dispute, c.client_id, txid, none⟩]
        td cd).1.retrieve_transaction_data txid
      = some ⟨TransactionType.Withdrawal, c.client_id, txid, some amt⟩ ∧
    (apply_transactions
        [Except.ok ⟨TransactionType.Withdrawal, c.client_id, txid, some amt⟩,
         Except.ok ⟨TransactionType.Dispute, c.client_id, txid, none⟩]
        td cd).2.2 = none ∧
    (apply_transactions
        [Except.ok ⟨TransactionType.Withdrawal, c.client_id, txid, some amt⟩,
         Except.ok ⟨TransactionType.Dispute, c.client_id, txid, none⟩]
        td cd).2.1.db c.client_id
      = some { c with available := c.available - amt, held := c.held + amt } := by
  have hw : c.withdrawal (some amt) = c := by
    simp [Client.withdrawal, not_lt.mpr hge]
  refine ⟨?_, ?_, ?_, ?_⟩ <;>
    simp [apply_transactions, Transaction.handle_transaction,
      ClientDb.get_client_record, hc, hw, TransactionDb.insert_transaction,
      TransactionDb.retrieve_transaction_data, Client.apply_transaction_to_client,
      Client.dispute, hl]

/-- Witness for C10: a withdrawal of 50 against 40 available, then a
dispute of the same transaction id. -/
theorem rejected_withdrawal_still_disputable_witness :
    (apply_transactions
        [Except.ok { transaction_type := TransactionType.Withdrawal, client_id := 1,
                     transaction_id := 8, amount := some 50 },
         Except.ok { transaction_type := TransactionType.Dispute, client_id := 1,
                     transaction_id := 8, amount := none }]
        TransactionDb.init
        (ClientDb.init.insert_client_record
          { client_id := 1, available := 40, held := 0, total := 40,
            locked := false })).2.1.db 1
      = some { client_id := 1, available := 40 - 50, held := 0 + 50, total := 40,
               locked := false } :=
  (rejected_withdrawal_still_disputable
    { client_id := 1, available := 40, held := 0, total := 40, locked := false }
    50 8 TransactionDb.init
    (ClientDb.init.insert_client_record
      { client_id := 1, available := 40, held := 0, total := 40, locked := false })
    rfl (by norm_num) rfl).2.2.2
